import Mathlib

/-!
Shallow embedding of `chisel/widgets/core/new_core.py`.

The module's numeric constants are exact decimal fractions, embedded as
rationals.  Pixel channel values are unsigned bytes, embedded as naturals;
the NumPy statement `view * .8` followed by assignment back into a `uint8`
array truncates toward zero, and for every byte value `v ≤ 255` the float64
product `v * 0.8` floors to `v * 4 / 5` in natural division, which is how
`darken` is defined.  NumPy basic slices are views, so the erosion mask is
computed from the already-darkened values; Python slice bounds wrap when
negative, which `normSlice` reproduces.
-/

def GRAVITY : ℚ := 0.02

def FRICTION : ℚ := 0.9

def DISLODGE_VELOCITY : ℚ := 0.001

def MAX_VELOCITY : ℚ := 0.2

def RADIUS : ℤ := 1

def R : ℤ := RADIUS

def MIN_POWER : ℚ := 0.00001

def CHISEL_POWER : ℚ := 100

/-- One RGBA texel of the pixel buffer (byte values). -/
structure Texel where
  r : ℕ
  g : ℕ
  b : ℕ
  a : ℕ
deriving DecidableEq

/-- Darkening of one byte: `view * .8` assigned back into a `uint8` array means truncation of `v * 0.8`,
which for `v ≤ 255` equals natural division `v * 4 / 5`. -/
def darken (v : ℕ) : ℕ := v * 4 / 5

/-- The effect of one poke on one texel inside the slice window: the RGB
channels are darkened in place, and because the mask is computed from the
live view `view[:, :, :-1]` — channels 0 and 1 of the already
alpha-stripped view, i.e. R and G only — alpha is zeroed exactly when the
darkened `r + g` sum is below 100. -/
def pokeTexel (t : Texel) : Texel :=
  { r := darken t.r, g := darken t.g, b := darken t.b,
    a := if darken t.r + darken t.g < 100 then 0 else t.a }

/-- Python slice-bound normalization for an axis of length `n`:
negative bounds have `n` added, then the bound is clamped to `[0, n]`. -/
def normSlice (i n : ℤ) : ℤ := max 0 (min n (if i < 0 then i + n else i))

/-- Membership of index `j` in the Python slice `[start:stop]` of an axis of
length `n`. -/
def inSlice (start stop n : ℤ) (j : ℕ) : Prop :=
  normSlice start n ≤ (j : ℤ) ∧ (j : ℤ) < normSlice stop n

instance (start stop n : ℤ) (j : ℕ) : Decidable (inSlice start stop n j) := by
  unfold inSlice
  infer_instance

/-- A touch event: `spos = (sx, sy)` and the per-axis deltas `dsx, dsy`. -/
structure PokeInput where
  sx : ℚ
  sy : ℚ
  dsx : ℚ
  dsy : ℚ

/-- State of one `Pebble`'s pixel: unscaled position and velocity. -/
structure PebbleState where
  x : ℚ
  y : ℚ
  vx : ℚ
  vy : ℚ
deriving DecidableEq

/-- Wall bounce `if not 0 < x < 1: vx *= -1`, applied after `vx *= FRICTION`. -/
def bounceVx (x vx : ℚ) : ℚ :=
  if ¬(0 < x ∧ x < 1) then -(vx * FRICTION) else vx * FRICTION

/-- Embedding of `Pebble.step`: friction on both velocity components, gravity on the
vertical one, wall bounce keyed on the pre-step `x`, position advanced by
the new velocity with `y` floored at 0.  The boolean is the
`if not self.pixel.y` landing test that cancels the clock event and deletes
the pebble from `chisel.pebbles`. -/
def Pebble.step (p : PebbleState) : PebbleState × Bool :=
  (⟨p.x + bounceVx p.x p.vx,
    max 0 (p.y + (p.vy * FRICTION - GRAVITY)),
    bounceVx p.x p.vx,
    p.vy * FRICTION - GRAVITY⟩,
   decide (max 0 (p.y + (p.vy * FRICTION - GRAVITY)) = 0))

/-- One simulation tick over the `pebbles` dictionary (keys to states):
each stored pebble steps, and a pebble whose landing test fired is deleted
from the dictionary. -/
def stepDict (d : ℕ → Option PebbleState) : ℕ → Option PebbleState := fun i =>
  match d i with
  | none => none
  | some p => if (Pebble.step p).2 then none else some (Pebble.step p).1

/-- Touch-to-image mapping `x = 1.333 * (tx - .125)`. -/
def mapX (sx : ℚ) : ℚ := 1.333 * (sx - 0.125)

/-- Touch-to-image mapping `y = 1.333 * (ty - .1)`. -/
def mapY (sy : ℚ) : ℚ := 1.333 * (sy - 0.1)

/-- State of a `Chisel` widget that `poke` can touch: the image buffer
(height `h`, width `w`, texel lookup by row then column) and the `pebbles`
dictionary. -/
structure ChiselState where
  w : ℕ
  h : ℕ
  img : ℕ → ℕ → Texel
  pebbles : ℕ → Option PebbleState

/-- The in-bounds part of `Chisel.poke` on the image buffer: every texel of
the slice window `[py-R : py+R+1, px-R : px+R+1]` is rewritten by
`pokeTexel` — the darkening assignment and the masked alpha-zeroing act on
the same window, and the mask reads the darkened view, so their fusion is
exact. -/
def pokeImg (w h : ℕ) (img : ℕ → ℕ → Texel) (px py : ℤ) : ℕ → ℕ → Texel :=
  fun i j =>
    if inSlice (py - R) (py + R + 1) (h : ℤ) i ∧ inSlice (px - R) (px + R + 1) (w : ℤ) j
    then pokeTexel (img i j) else img i j

/-- Embedding of `Chisel.poke`: map the touch to normalized image coordinates; outside
`[0,1]×[0,1]` return unchanged.  Otherwise truncate to pixel indices
(`int()` on the nonnegative products is the floor) and apply the erosion
window.  The body never reads or writes `self.pebbles` and constructs no
`Pebble`. -/
def pokeState (s : ChiselState) (t : PokeInput) : ChiselState :=
  if 0 ≤ mapX t.sx ∧ mapX t.sx ≤ 1 ∧ 0 ≤ mapY t.sy ∧ mapY t.sy ≤ 1 then
    { s with img := pokeImg s.w s.h s.img ⌊mapX t.sx * (s.w : ℚ)⌋ ⌊mapY t.sy * (s.h : ℚ)⌋ }
  else s

/-- A sequence of pokes applied in order. -/
def pokeSeq (s : ChiselState) (ts : List PokeInput) : ChiselState :=
  ts.foldl pokeState s

/-- The Python exception raised when a referenced global name is missing. -/
inductive PyError where
  | nameError : PyError
deriving DecidableEq

/-- The module global named `CHISEL_RADIUS` that `poke_power` compares
`distance` against.  The module defines `GRAVITY`, `FRICTION`,
`DISLODGE_VELOCITY`, `MAX_VELOCITY`, `IMAGE_SCALE`, `IMAGE_DIM`, `RADIUS`,
`R`, `MIN_POWER`, `CHISEL_POWER`, `BACKGROUND`, `SOUND` and
`BOULDER_IMAGE_PATHS` — no `CHISEL_RADIUS` — so the lookup fails. -/
def CHISEL_RADIUS_global : Option ℚ := none

/-- Embedding of `Chisel.poke_power`: computes `dx, dy` and the squared distance, then
evaluates `distance > CHISEL_RADIUS`; the name lookup raises `NameError`
because the module never defines `CHISEL_RADIUS`.  The code that would run
after a successful comparison is embedded under the `some` case. -/
def Chisel.poke_power (tx ty touch_velocity pebble_x pebble_y : ℚ) :
    Except PyError (ℚ × ℚ) :=
  match CHISEL_RADIUS_global with
  | none => Except.error PyError.nameError
  | some chisel_radius =>
      if (pebble_x - tx) ^ 2 + (pebble_y - ty) ^ 2 > chisel_radius then
        Except.ok (0, 0)
      else
        Except.ok
          ((max (CHISEL_POWER * touch_velocity) MIN_POWER /
              (if (pebble_x - tx) ^ 2 + (pebble_y - ty) ^ 2 = 0 then 0.0001
               else (pebble_x - tx) ^ 2 + (pebble_y - ty) ^ 2)) * (pebble_x - tx),
           (max (CHISEL_POWER * touch_velocity) MIN_POWER /
              (if (pebble_x - tx) ^ 2 + (pebble_y - ty) ^ 2 = 0 then 0.0001
               else (pebble_x - tx) ^ 2 + (pebble_y - ty) ^ 2)) * (pebble_y - ty))

/-- Embedding of `is_dislodged`: `magnitude = (x**2 + y**2) ** .5` is the Euclidean
norm; below `DISLODGE_VELOCITY` the function returns `False` (here
`none`), above `MAX_VELOCITY` both components are scaled by
`MAX_VELOCITY / magnitude`, otherwise the vector is returned unchanged. -/
noncomputable def is_dislodged (v : ℝ × ℝ) : Option (ℝ × ℝ) :=
  if Real.sqrt (v.1 ^ 2 + v.2 ^ 2) < ((DISLODGE_VELOCITY : ℚ) : ℝ) then none
  else if Real.sqrt (v.1 ^ 2 + v.2 ^ 2) > ((MAX_VELOCITY : ℚ) : ℝ) then
    some (v.1 * (((MAX_VELOCITY : ℚ) : ℝ) / Real.sqrt (v.1 ^ 2 + v.2 ^ 2)),
          v.2 * (((MAX_VELOCITY : ℚ) : ℝ) / Real.sqrt (v.1 ^ 2 + v.2 ^ 2)))
  else some (v.1, v.2)

/-! Concrete states used by witnesses and counterexamples. -/

/-- Buffer (5×5) whose texels darken to `(30, 60, 50)`: the darkened RGB sum
is 140 but the darkened R+G sum is 90. -/
def bufA : ChiselState := ⟨5, 5, fun _ _ => ⟨38, 76, 63, 255⟩, fun _ => none⟩

/-- Buffer (5×5) of mid-grey texels. -/
def bufB : ChiselState := ⟨5, 5, fun _ _ => ⟨100, 100, 100, 255⟩, fun _ => none⟩

/-- Buffer (2×2) of bright texels. -/
def bufC : ChiselState := ⟨2, 2, fun _ _ => ⟨200, 200, 200, 255⟩, fun _ => none⟩

/-- Buffer (2×2) whose alpha is already 0 everywhere. -/
def bufD : ChiselState := ⟨2, 2, fun _ _ => ⟨0, 0, 0, 0⟩, fun _ => none⟩

/-- A touch at the middle of the widget: maps to image position
`(3999/8000, 1333/2500)`, pixel `(2, 2)` on a 5×5 buffer. -/
def touchCenter : PokeInput := ⟨1/2, 1/2, 1, 1⟩

/-- A touch mapping to image x = 1/10, pixel column 0 on a 5×5 buffer. -/
def touchEdge : PokeInput := ⟨1/8 + 100/1333, 1/2, 1, 1⟩

/-- A touch mapping to image position `(1, 1/2)` exactly: pixel column
index `w`, one past the last valid column. -/
def touchRight : PokeInput := ⟨1/8 + 1000/1333, 1/10 + 500/1333, 1, 1⟩

/-- A touch mapping to image x = -3999/40000 < 0. -/
def touchLeft : PokeInput := ⟨1/20, 1/2, 1, 1⟩

/-- A pebble one gravity quantum above the floor: its next step lands. -/
def pLand : PebbleState := ⟨1/2, 1/100, 0, 0⟩

/-- A pebbles dictionary holding `pLand` at key 0. -/
def dLand : ℕ → Option PebbleState := fun i => if i = 0 then some pLand else none

/-- A pebble at rest in mid-air. -/
def pMax : PebbleState := ⟨1/2, 1/2, 0, 0⟩

/-! Theorems. -/

/-- C1: an in-bounds poke with a large touch velocity erodes the buffer
(the center texel is rewritten) yet leaves the `pebbles` dictionary
untouched: the body of `poke` never computes a force, never consults
`is_dislodged`, and constructs no `Pebble`, contradicting the claim (and
the class docstring "Creates Pebbles on collision"). -/
theorem poke_spawns_no_pebble :
    (pokeState bufA touchCenter).pebbles = bufA.pebbles
    ∧ (pokeState bufA touchCenter).img 2 2 ≠ bufA.img 2 2 := by
  constructor
  · unfold pokeState
    split <;> rfl
  · simp only [pokeState, bufA, touchCenter, mapX, mapY]
    norm_num [pokeImg, inSlice, normSlice, R, RADIUS, pokeTexel, darken, Texel.mk.injEq]

/-- C2: every evaluation of `poke_power` fails: the comparison
`distance > CHISEL_RADIUS` references a global the module never defines,
so the call raises `NameError` instead of returning a force vector. -/
theorem poke_power_raises_name_error :
    Chisel.poke_power 0 0 1 (1/2) (1/2) = Except.error PyError.nameError := rfl

/-- C4 counterexample: at the claim's own example `x = 0.99`, `vx = 0.02`,
the step does not negate `vx` (it stays `0.018 > 0`) even though the
updated position `0.99 + 0.018 = 1.008` exits `[0,1]`: the code tests the
pre-step `x`, not the updated one. -/
theorem step_no_bounce_at_exit :
    (Pebble.step ⟨99/100, 1/2, 1/50, 0⟩).1.vx = 9/500
    ∧ 1 < (Pebble.step ⟨99/100, 1/2, 1/50, 0⟩).1.x := by
  refine ⟨?_, ?_⟩
  · simp only [Pebble.step, bounceVx]
    norm_num [FRICTION, GRAVITY]
  · simp only [Pebble.step, bounceVx]
    norm_num [FRICTION, GRAVITY]

/-- C4 amended: after friction (and, for `vy`, gravity) are applied, `vx`
is negated exactly when the pre-step `x` lies outside the open interval
`(0, 1)`; the updated position plays no role in the test. -/
theorem step_bounce_rule (p : PebbleState) :
    (Pebble.step p).1.vx =
      if 0 < p.x ∧ p.x < 1 then p.vx * FRICTION else -(p.vx * FRICTION) := by
  by_cases h : 0 < p.x ∧ p.x < 1 <;> simp [Pebble.step, bounceVx, h]

/-- C5: a poke at the center of `bufA` leaves the center texel with
darkened channels `(30, 60, 50)` — darkened RGB sum `140 ≥ 100` — yet its
alpha is zeroed, because the mask `view[:, :, :-1].sum(axis=2) < 100` sums
only the R and G channels (`view` already dropped alpha): here
`30 + 60 = 90 < 100`.  The claim's three-channel threshold is violated. -/
theorem poke_alpha_zeroed_by_rg_sum :
    bufA.img 2 2 = ⟨38, 76, 63, 255⟩
    ∧ (pokeState bufA touchCenter).img 2 2 = ⟨30, 60, 50, 0⟩ := by
  refine ⟨rfl, ?_⟩
  simp only [pokeState, bufA, touchCenter, mapX, mapY]
  norm_num [pokeImg, inSlice, normSlice, R, RADIUS, pokeTexel, darken]

/-- C7 (amended): a poke whose mapped normalized position falls outside
`[0,1]×[0,1]` is a complete no-op: the whole state — buffer and pebbles —
is returned unchanged, and the embedding is a total function (no error). -/
theorem poke_out_of_bounds_noop (s : ChiselState) (t : PokeInput)
    (h : ¬(0 ≤ mapX t.sx ∧ mapX t.sx ≤ 1 ∧ 0 ≤ mapY t.sy ∧ mapY t.sy ≤ 1)) :
    pokeState s t = s := by
  simp only [pokeState, if_neg h]

/-- C7 witness: the touch `touchLeft` maps to image x = -3999/40000 < 0
(the spec's "x = -0.1" example), and the poke leaves the state unchanged. -/
theorem poke_out_of_bounds_noop_witness :
    ¬(0 ≤ mapX touchLeft.sx ∧ mapX touchLeft.sx ≤ 1
      ∧ 0 ≤ mapY touchLeft.sy ∧ mapY touchLeft.sy ≤ 1)
    ∧ pokeState bufA touchLeft = bufA := by
  have h : ¬(0 ≤ mapX touchLeft.sx ∧ mapX touchLeft.sx ≤ 1
      ∧ 0 ≤ mapY touchLeft.sy ∧ mapY touchLeft.sy ≤ 1) := by
    norm_num [mapX, mapY, touchLeft]
  exact ⟨h, poke_out_of_bounds_noop bufA touchLeft h⟩

/-- C7 counterexample: `touchRight` maps to normalized position `(1, 1/2)`
— inside `[0,1]×[0,1]` — whose pixel column index is `⌊1 * 2⌋ = 2 = w`,
outside the 2×2 buffer's valid indices.  The claim says such a poke leaves
the buffer entirely unchanged, but the slice `[w-1 : w+2]` still darkens
the last column: texel `(0, 1)` changes from `(200,200,200,255)` to
`(160,160,160,255)`. -/
theorem poke_oob_pixel_index_changes_buffer :
    mapX touchRight.sx = 1
    ∧ ⌊mapX touchRight.sx * (bufC.w : ℚ)⌋ = 2
    ∧ (pokeState bufC touchRight).img 0 1 = ⟨160, 160, 160, 255⟩
    ∧ bufC.img 0 1 = ⟨200, 200, 200, 255⟩ := by
  refine ⟨by norm_num [mapX, touchRight], by norm_num [mapX, touchRight, bufC], ?_, rfl⟩
  simp only [pokeState, bufC, touchRight, mapX, mapY]
  norm_num [pokeImg, inSlice, normSlice, R, RADIUS, pokeTexel, darken]

/-- Alpha of a texel never increases across one poke. -/
theorem pokeState_alpha_le (s : ChiselState) (t : PokeInput) (i j : ℕ) :
    ((pokeState s t).img i j).a ≤ (s.img i j).a := by
  unfold pokeState
  split
  · show (pokeImg s.w s.h s.img _ _ i j).a ≤ _
    unfold pokeImg
    split
    · unfold pokeTexel
      dsimp only
      split
      · exact Nat.zero_le _
      · exact Nat.le_refl _
    · exact Nat.le_refl _
  · exact Nat.le_refl _

/-- Alpha of a texel never increases across a sequence of pokes. -/
theorem pokeSeq_alpha_le (ts : List PokeInput) (s : ChiselState) (i j : ℕ) :
    ((pokeSeq s ts).img i j).a ≤ (s.img i j).a := by
  induction ts generalizing s with
  | nil => exact Nat.le_refl _
  | cons t ts ih => exact Nat.le_trans (ih (pokeState s t)) (pokeState_alpha_le s t i j)

/-- C8: at every buffer coordinate the alpha channel is monotonically
non-increasing — across one poke and across any sequence of pokes — and a
texel whose alpha is already 0 still has alpha 0 after arbitrarily many
further pokes. -/
theorem poke_alpha_monotone (s : ChiselState) (t : PokeInput)
    (ts : List PokeInput) (i j : ℕ) :
    ((pokeState s t).img i j).a ≤ (s.img i j).a
    ∧ ((pokeSeq s ts).img i j).a ≤ (s.img i j).a
    ∧ ((s.img i j).a = 0 → ((pokeSeq s ts).img i j).a = 0) := by
  refine ⟨pokeState_alpha_le s t i j, pokeSeq_alpha_le ts s i j, fun h0 => ?_⟩
  exact Nat.le_zero.mp (h0 ▸ pokeSeq_alpha_le ts s i j)

/-- C8 witness: on a buffer whose texel `(0,0)` already has alpha 0, a
further poke keeps alpha 0. -/
theorem poke_alpha_monotone_witness :
    (bufD.img 0 0).a = 0 ∧ ((pokeSeq bufD [touchCenter]).img 0 0).a = 0 :=
  ⟨rfl, (poke_alpha_monotone bufD touchCenter [touchCenter] 0 0).2.2 rfl⟩

/-- C9: one pebble step floors the post-step `y` at 0; the landing signal
(`if not self.pixel.y`) fires exactly when the post-step `y` equals 0; a
stored pebble whose step landed is deleted from the pebbles dictionary on
that same tick; and a deleted (absent) key stays absent under further
ticks, so a landed pebble takes no further steps and is never revived. -/
theorem pebble_lands_at_floor (p : PebbleState) :
    0 ≤ (Pebble.step p).1.y
    ∧ ((Pebble.step p).2 = true ↔ (Pebble.step p).1.y = 0)
    ∧ (∀ (d : ℕ → Option PebbleState) (i : ℕ),
        d i = some p → (Pebble.step p).2 = true → stepDict d i = none)
    ∧ (∀ (d : ℕ → Option PebbleState) (i : ℕ), d i = none → stepDict d i = none) := by
  refine ⟨le_max_left 0 _, by simp [Pebble.step], ?_, ?_⟩
  · intro d i hd hl
    simp [stepDict, hd, hl]
  · intro d i hd
    simp [stepDict, hd]

/-- C9 witness: the pebble `pLand` (at `y = 1/100` with zero velocity)
lands on its next step — post-step `y = max 0 (-1/100) = 0` — and is
removed from the dictionary `dLand` on that tick, while the absent key 1
stays absent. -/
theorem pebble_lands_at_floor_witness :
    dLand 0 = some pLand
    ∧ (Pebble.step pLand).2 = true
    ∧ stepDict dLand 0 = none
    ∧ stepDict dLand 1 = none := by
  have hl : (Pebble.step pLand).2 = true := by
    simp [Pebble.step, pLand, FRICTION, GRAVITY]
    norm_num
  exact ⟨rfl, hl, (pebble_lands_at_floor pLand).2.2.1 dLand 0 rfl hl,
    (pebble_lands_at_floor pLand).2.2.2 dLand 1 rfl⟩

/-- C3: `is_dislodged` returns `False` (`none`) when the Euclidean norm of
the velocity is below `DISLODGE_VELOCITY`; when the norm exceeds
`MAX_VELOCITY` it returns the vector scaled by the positive factor
`MAX_VELOCITY / norm`, whose norm is exactly `MAX_VELOCITY` and whose
direction is that of the input; otherwise it returns the vector
unchanged. -/
theorem is_dislodged_spec (v : ℝ × ℝ) :
    (Real.sqrt (v.1 ^ 2 + v.2 ^ 2) < ((DISLODGE_VELOCITY : ℚ) : ℝ) →
      is_dislodged v = none)
    ∧ (((MAX_VELOCITY : ℚ) : ℝ) < Real.sqrt (v.1 ^ 2 + v.2 ^ 2) →
      ∃ u : ℝ × ℝ, is_dislodged v = some u
        ∧ Real.sqrt (u.1 ^ 2 + u.2 ^ 2) = ((MAX_VELOCITY : ℚ) : ℝ)
        ∧ ∃ k : ℝ, 0 < k ∧ u.1 = k * v.1 ∧ u.2 = k * v.2)
    ∧ (((DISLODGE_VELOCITY : ℚ) : ℝ) ≤ Real.sqrt (v.1 ^ 2 + v.2 ^ 2) →
      Real.sqrt (v.1 ^ 2 + v.2 ^ 2) ≤ ((MAX_VELOCITY : ℚ) : ℝ) →
      is_dislodged v = some (v.1, v.2)) := by
  refine ⟨fun h => ?_, fun h => ?_, fun hD hM => ?_⟩
  · simp only [is_dislodged, if_pos h]
  · have hM0 : (0:ℝ) < ((MAX_VELOCITY : ℚ) : ℝ) := by norm_num [MAX_VELOCITY]
    have hm0 : 0 < Real.sqrt (v.1 ^ 2 + v.2 ^ 2) := lt_trans hM0 h
    have hDM : ((DISLODGE_VELOCITY : ℚ) : ℝ) < ((MAX_VELOCITY : ℚ) : ℝ) := by
      norm_num [DISLODGE_VELOCITY, MAX_VELOCITY]
    have h1 : ¬ Real.sqrt (v.1 ^ 2 + v.2 ^ 2) < ((DISLODGE_VELOCITY : ℚ) : ℝ) :=
      not_lt.mpr (le_of_lt (lt_trans hDM h))
    refine ⟨(v.1 * (((MAX_VELOCITY : ℚ) : ℝ) / Real.sqrt (v.1 ^ 2 + v.2 ^ 2)),
             v.2 * (((MAX_VELOCITY : ℚ) : ℝ) / Real.sqrt (v.1 ^ 2 + v.2 ^ 2))), ?_, ?_,
            ((MAX_VELOCITY : ℚ) : ℝ) / Real.sqrt (v.1 ^ 2 + v.2 ^ 2),
            div_pos hM0 hm0, mul_comm _ _, mul_comm _ _⟩
    · simp only [is_dislodged, if_neg h1, if_pos h]
    · have hmsq : Real.sqrt (v.1 ^ 2 + v.2 ^ 2) ^ 2 = v.1 ^ 2 + v.2 ^ 2 :=
        Real.sq_sqrt (by positivity)
      have hmne : Real.sqrt (v.1 ^ 2 + v.2 ^ 2) ≠ 0 := ne_of_gt hm0
      have key : (v.1 * (((MAX_VELOCITY : ℚ) : ℝ) / Real.sqrt (v.1 ^ 2 + v.2 ^ 2))) ^ 2
          + (v.2 * (((MAX_VELOCITY : ℚ) : ℝ) / Real.sqrt (v.1 ^ 2 + v.2 ^ 2))) ^ 2
          = ((MAX_VELOCITY : ℚ) : ℝ) ^ 2 := by
        have hrw : (v.1 * (((MAX_VELOCITY : ℚ) : ℝ) / Real.sqrt (v.1 ^ 2 + v.2 ^ 2))) ^ 2
            + (v.2 * (((MAX_VELOCITY : ℚ) : ℝ) / Real.sqrt (v.1 ^ 2 + v.2 ^ 2))) ^ 2
            = (v.1 ^ 2 + v.2 ^ 2) * ((MAX_VELOCITY : ℚ) : ℝ) ^ 2
              / Real.sqrt (v.1 ^ 2 + v.2 ^ 2) ^ 2 := by
          ring
        have hm2 : v.1 ^ 2 + v.2 ^ 2 ≠ 0 := hmsq ▸ pow_ne_zero 2 hmne
        rw [hrw, ← hmsq]
        field_simp
      rw [key]
      exact Real.sqrt_sq hM0.le
  · have h1 : ¬ Real.sqrt (v.1 ^ 2 + v.2 ^ 2) < ((DISLODGE_VELOCITY : ℚ) : ℝ) :=
      not_lt.mpr hD
    have h2 : ¬ Real.sqrt (v.1 ^ 2 + v.2 ^ 2) > ((MAX_VELOCITY : ℚ) : ℝ) :=
      not_lt.mpr hM
    simp only [is_dislodged, if_neg h1, if_neg h2]

/-- C3 witness: the velocity `(3/10, 2/5)` has norm `1/2 > MAX_VELOCITY`,
and `is_dislodged` clamps it to a positively scaled vector of norm exactly
`MAX_VELOCITY`. -/
theorem is_dislodged_spec_witness :
    ((MAX_VELOCITY : ℚ) : ℝ) <
      Real.sqrt (((3/10 : ℝ), (2/5 : ℝ)).1 ^ 2 + ((3/10 : ℝ), (2/5 : ℝ)).2 ^ 2)
    ∧ ∃ u : ℝ × ℝ, is_dislodged ((3/10 : ℝ), (2/5 : ℝ)) = some u
        ∧ Real.sqrt (u.1 ^ 2 + u.2 ^ 2) = ((MAX_VELOCITY : ℚ) : ℝ)
        ∧ ∃ k : ℝ, 0 < k ∧ u.1 = k * ((3/10 : ℝ), (2/5 : ℝ)).1
            ∧ u.2 = k * ((3/10 : ℝ), (2/5 : ℝ)).2 := by
  have hs : Real.sqrt (((3/10 : ℝ), (2/5 : ℝ)).1 ^ 2 + ((3/10 : ℝ), (2/5 : ℝ)).2 ^ 2)
      = 1/2 := by
    have h1 : ((3/10 : ℝ), (2/5 : ℝ)).1 ^ 2 + ((3/10 : ℝ), (2/5 : ℝ)).2 ^ 2
        = (1/2 : ℝ) ^ 2 := by norm_num
    rw [h1, Real.sqrt_sq (by norm_num : (0:ℝ) ≤ 1/2)]
  have h : ((MAX_VELOCITY : ℚ) : ℝ) <
      Real.sqrt (((3/10 : ℝ), (2/5 : ℝ)).1 ^ 2 + ((3/10 : ℝ), (2/5 : ℝ)).2 ^ 2) := by
    rw [hs]
    norm_num [MAX_VELOCITY]
  exact ⟨h, (is_dislodged_spec ((3/10 : ℝ), (2/5 : ℝ))).2.1 h⟩

/-- C10: a pebble step preserves the velocity bound: if the velocity's
Euclidean norm is at most `MAX_VELOCITY` before the step, it still is
after friction, gravity, and any wall-bounce sign flip. -/
theorem step_velocity_bound (p : PebbleState)
    (h : Real.sqrt ((p.vx : ℝ) ^ 2 + (p.vy : ℝ) ^ 2) ≤ ((MAX_VELOCITY : ℚ) : ℝ)) :
    Real.sqrt (((Pebble.step p).1.vx : ℝ) ^ 2 + ((Pebble.step p).1.vy : ℝ) ^ 2)
      ≤ ((MAX_VELOCITY : ℚ) : ℝ) := by
  have hM : ((MAX_VELOCITY : ℚ) : ℝ) = 1/5 := by norm_num [MAX_VELOCITY]
  have ha : (0:ℝ) ≤ (p.vx : ℝ) ^ 2 + (p.vy : ℝ) ^ 2 := by positivity
  have hsq : (p.vx : ℝ) ^ 2 + (p.vy : ℝ) ^ 2 ≤ (1/5 : ℝ) ^ 2 := by
    have h2 := pow_le_pow_left₀ (Real.sqrt_nonneg _) h 2
    rwa [Real.sq_sqrt ha, hM] at h2
  have hvx : ((Pebble.step p).1.vx : ℝ) ^ 2 = ((p.vx : ℝ) * (9/10)) ^ 2 := by
    show ((bounceVx p.x p.vx : ℚ) : ℝ) ^ 2 = _
    unfold bounceVx
    split
    · push_cast [FRICTION]
      ring
    · push_cast [FRICTION]
      ring
  have hvy : ((Pebble.step p).1.vy : ℝ) = (p.vy : ℝ) * (9/10) - 1/50 := by
    show ((p.vy * FRICTION - GRAVITY : ℚ) : ℝ) = _
    push_cast [FRICTION, GRAVITY]
    norm_num
  have hb : ((Pebble.step p).1.vx : ℝ) ^ 2 + ((Pebble.step p).1.vy : ℝ) ^ 2
      ≤ (1/5 : ℝ) ^ 2 := by
    rw [hvx, hvy]
    nlinarith [sq_nonneg ((p.vy : ℝ) + 1/5), sq_nonneg (p.vx : ℝ), hsq]
  calc Real.sqrt (((Pebble.step p).1.vx : ℝ) ^ 2 + ((Pebble.step p).1.vy : ℝ) ^ 2)
      ≤ Real.sqrt ((1/5 : ℝ) ^ 2) := Real.sqrt_le_sqrt hb
    _ = 1/5 := Real.sqrt_sq (by norm_num)
    _ = ((MAX_VELOCITY : ℚ) : ℝ) := hM.symm

/-- C10 witness: the resting pebble `pMax` has velocity norm `0 ≤
MAX_VELOCITY`, and after one step (friction and gravity) the norm is still
at most `MAX_VELOCITY`. -/
theorem step_velocity_bound_witness :
    Real.sqrt ((pMax.vx : ℝ) ^ 2 + (pMax.vy : ℝ) ^ 2) ≤ ((MAX_VELOCITY : ℚ) : ℝ)
    ∧ Real.sqrt (((Pebble.step pMax).1.vx : ℝ) ^ 2 + ((Pebble.step pMax).1.vy : ℝ) ^ 2)
      ≤ ((MAX_VELOCITY : ℚ) : ℝ) := by
  have h : Real.sqrt ((pMax.vx : ℝ) ^ 2 + (pMax.vy : ℝ) ^ 2)
      ≤ ((MAX_VELOCITY : ℚ) : ℝ) := by
    norm_num [pMax, MAX_VELOCITY, Real.sqrt_zero]
  exact ⟨h, step_velocity_bound pMax h⟩

/-- C6 counterexample: a poke mapping to pixel `(0, 2)` on the 5×5 buffer
`bufB`.  The claim says the window clipped to bounds — here columns 0–1,
rows 1–3 — is darkened, so texel `(2, 0)` should become `(80, 80, 80)`.
But the Python slice `[x-R : x+R+1] = [-1 : 2]` has its negative start
wrapped to `w - 1 = 4`, giving the empty column range `[4 : 2]`: no texel
is darkened at all and `(2, 0)` keeps its original value. -/
theorem poke_left_edge_darkens_nothing :
    ⌊mapX touchEdge.sx * (bufB.w : ℚ)⌋ = 0
    ∧ ⌊mapY touchEdge.sy * (bufB.h : ℚ)⌋ = 2
    ∧ (pokeState bufB touchEdge).img 2 0 = ⟨100, 100, 100, 255⟩
    ∧ pokeTexel ⟨100, 100, 100, 255⟩ = ⟨80, 80, 80, 255⟩ := by
  refine ⟨by norm_num [mapX, touchEdge, bufB], by norm_num [mapY, touchEdge, bufB], ?_,
    by norm_num [pokeTexel, darken]⟩
  simp only [pokeState, bufB, touchEdge, mapX, mapY]
  norm_num [pokeImg, inSlice, normSlice, R, RADIUS, pokeTexel, darken]

/-- C6 (amended): for an in-bounds poke whose pixel indices `(px, py)` are
both at least 1, the affected region is exactly the radius-1 square window
centered at `(px, py)` intersected with the buffer (upper-edge clipping
comes from the index bounds `i < h`, `j < w`): every buffer texel inside it
is rewritten by `pokeTexel` (RGB darkened by the 0.8 factor) and every
texel outside it is untouched.  When `px = 0` or `py = 0` the Python slice
start `-1` wraps instead of clipping (see the counterexample). -/
theorem poke_window_in_interior (s : ChiselState) (t : PokeInput)
    (hin : 0 ≤ mapX t.sx ∧ mapX t.sx ≤ 1 ∧ 0 ≤ mapY t.sy ∧ mapY t.sy ≤ 1)
    (hpx : 1 ≤ ⌊mapX t.sx * (s.w : ℚ)⌋) (hpy : 1 ≤ ⌊mapY t.sy * (s.h : ℚ)⌋)
    (i j : ℕ) (hi : i < s.h) (hj : j < s.w) :
    (pokeState s t).img i j =
      if ⌊mapY t.sy * (s.h : ℚ)⌋ - 1 ≤ (i : ℤ) ∧ (i : ℤ) < ⌊mapY t.sy * (s.h : ℚ)⌋ + 2
         ∧ ⌊mapX t.sx * (s.w : ℚ)⌋ - 1 ≤ (j : ℤ) ∧ (j : ℤ) < ⌊mapX t.sx * (s.w : ℚ)⌋ + 2
      then pokeTexel (s.img i j) else s.img i j := by
  have hiff :
      (inSlice (⌊mapY t.sy * (s.h : ℚ)⌋ - R) (⌊mapY t.sy * (s.h : ℚ)⌋ + R + 1) (s.h : ℤ) i
        ∧ inSlice (⌊mapX t.sx * (s.w : ℚ)⌋ - R) (⌊mapX t.sx * (s.w : ℚ)⌋ + R + 1) (s.w : ℤ) j)
      ↔ (⌊mapY t.sy * (s.h : ℚ)⌋ - 1 ≤ (i : ℤ) ∧ (i : ℤ) < ⌊mapY t.sy * (s.h : ℚ)⌋ + 2
         ∧ ⌊mapX t.sx * (s.w : ℚ)⌋ - 1 ≤ (j : ℤ) ∧ (j : ℤ) < ⌊mapX t.sx * (s.w : ℚ)⌋ + 2) := by
    unfold inSlice normSlice R RADIUS
    split_ifs <;> omega
  rw [pokeState, if_pos hin]
  show pokeImg s.w s.h s.img _ _ i j = _
  unfold pokeImg
  exact if_congr hiff rfl rfl

/-- C6 witness: the center poke on `bufB` has pixel indices `(2, 2)`, both
at least 1, and the window rule evaluates at texel `(2, 2)`. -/
theorem poke_window_in_interior_witness :
    (0 ≤ mapX touchCenter.sx ∧ mapX touchCenter.sx ≤ 1
      ∧ 0 ≤ mapY touchCenter.sy ∧ mapY touchCenter.sy ≤ 1)
    ∧ 1 ≤ ⌊mapX touchCenter.sx * (bufB.w : ℚ)⌋
    ∧ 1 ≤ ⌊mapY touchCenter.sy * (bufB.h : ℚ)⌋
    ∧ (pokeState bufB touchCenter).img 2 2 =
        (if ⌊mapY touchCenter.sy * (bufB.h : ℚ)⌋ - 1 ≤ ((2 : ℕ) : ℤ)
            ∧ ((2 : ℕ) : ℤ) < ⌊mapY touchCenter.sy * (bufB.h : ℚ)⌋ + 2
            ∧ ⌊mapX touchCenter.sx * (bufB.w : ℚ)⌋ - 1 ≤ ((2 : ℕ) : ℤ)
            ∧ ((2 : ℕ) : ℤ) < ⌊mapX touchCenter.sx * (bufB.w : ℚ)⌋ + 2
         then pokeTexel (bufB.img 2 2) else bufB.img 2 2) := by
  have hin : 0 ≤ mapX touchCenter.sx ∧ mapX touchCenter.sx ≤ 1
      ∧ 0 ≤ mapY touchCenter.sy ∧ mapY touchCenter.sy ≤ 1 := by
    norm_num [mapX, mapY, touchCenter]
  have hpx : 1 ≤ ⌊mapX touchCenter.sx * (bufB.w : ℚ)⌋ := by
    norm_num [mapX, touchCenter, bufB]
  have hpy : 1 ≤ ⌊mapY touchCenter.sy * (bufB.h : ℚ)⌋ := by
    norm_num [mapY, touchCenter, bufB]
  exact ⟨hin, hpx, hpy,
    poke_window_in_interior bufB touchCenter hin hpx hpy 2 2
      (by norm_num [bufB]) (by norm_num [bufB])⟩
